import Mathlib

/-!
Verification of `tools/obscuroscan_v2/frontend/src/lib/config.prod.js`

The module defines one class with three static fields and exports it:

    class Config {
        static backendServerAddress = import.meta.env.VITE_APIHOSTADDRESS
        static pollingInterval = 1000
        static pricePollingInterval = 10*this.pollingInterval
    }
    export default Config

The embedding follows the evaluation of that class definition: the class
object starts without static fields, the three field definitions run in source
order, each one evaluates its right-hand side with `this` bound to the class
object built so far and then defines a data property on it.  After the load the
exported class object is an ordinary extensible object whose static fields are
writable, configurable data properties, on which a consumer can read, assign
and delete properties.
-/

namespace ObscuroscanConfig

/-! ## JavaScript values and objects -/

/-- JavaScript values that can be stored in a property.  Numbers are the
integer-valued doubles (signed zero is not distinguished) together with `NaN`;
the only arithmetic the module performs is `10 * 1000`. -/
inductive JSValue where
  | undefined : JSValue
  | null : JSValue
  | bool (b : Bool) : JSValue
  | num (n : Int) : JSValue
  | nan : JSValue
  | str (s : String) : JSValue
  deriving DecidableEq, Repr

/-- Errors a module evaluation can throw. -/
inductive JSError where
  | typeError (msg : String) : JSError
  deriving DecidableEq, Repr

deriving instance DecidableEq for Except

/-- An object as the list of its own data properties, in creation order.  Both
`import.meta.env` and the class object `Config` are such objects. -/
abbrev Obj := List (String × JSValue)

/-- Property read `o.k` on an object: the stored value, `undefined` when the
object has no such property. -/
def getProp (o : Obj) (k : String) : JSValue :=
  (o.lookup k).getD JSValue.undefined

/-- Property write `o.k = v` on an extensible object with writable data
properties (also the effect of a static field definition): the value of an
existing property is replaced in place, a new property is appended. -/
def setProp : Obj → String → JSValue → Obj
  | [], k, v => [(k, v)]
  | (k1, v1) :: rest, k, v =>
    if k = k1 then (k1, v) :: rest else (k1, v1) :: setProp rest k v

/-- Property removal `delete o.k` on configurable properties. -/
def deleteProp (o : Obj) (k : String) : Obj :=
  o.filter (fun p => !(k == p.1))

/-- Member access `base.k` where `base` may be `undefined` (`none`): reading a
property of `undefined` throws a `TypeError`. -/
def memberOf (base : Option Obj) (k : String) : Except JSError JSValue :=
  match base with
  | none => Except.error (JSError.typeError "Cannot read properties of undefined")
  | some o => Except.ok (getProp o k)

/-- The abstract operation `ToNumber`, `none` standing for `NaN`.  On strings
only decimal integer literals (surrounded by blanks) and the blank string are
recognised, every other string counts as `NaN`; the module never applies `*` to
a string. -/
def toNumber : JSValue → Option Int
  | JSValue.undefined => none
  | JSValue.null => some 0
  | JSValue.bool b => some (if b then 1 else 0)
  | JSValue.num n => some n
  | JSValue.nan => none
  | JSValue.str s => if s.trim.isEmpty then some 0 else s.trim.toInt?

/-- The operator `*`: both operands go through `ToNumber`, and the product is
`NaN` as soon as one of them is. -/
def jsMul (a b : JSValue) : JSValue :=
  match toNumber a, toNumber b with
  | some x, some y => JSValue.num (x * y)
  | _, _ => JSValue.nan

/-- The abstract operation `ToBoolean` (truthiness). -/
def toBoolean : JSValue → Bool
  | JSValue.undefined => false
  | JSValue.null => false
  | JSValue.bool b => b
  | JSValue.num n => n != 0
  | JSValue.nan => false
  | JSValue.str s => !s.isEmpty

/-! ## The class `Config` -/

/-- The field definition `static backendServerAddress =
import.meta.env.VITE_APIHOSTADDRESS`, run on the class object `this`.  The
argument `importMetaEnv` is the value of `import.meta.env` (`none` when the
host defines no such object; Vite always supplies one). -/
def Config.backendServerAddress (importMetaEnv : Option Obj) (this : Obj) :
    Except JSError Obj := do
  let v ← memberOf importMetaEnv "VITE_APIHOSTADDRESS"
  return setProp this "backendServerAddress" v

/-- The field definition `static pollingInterval = 1000`, run on the class
object `this`. -/
def Config.pollingInterval (this : Obj) : Obj :=
  setProp this "pollingInterval" (JSValue.num 1000)

/-- The field definition `static pricePollingInterval = 10*this.pollingInterval`,
run on the class object `this`, which the initialiser reads. -/
def Config.pricePollingInterval (this : Obj) : Obj :=
  setProp this "pricePollingInterval"
    (jsMul (JSValue.num 10) (getProp this "pollingInterval"))

/-- Evaluation of the module: the class definition of `Config`, whose three
static fields are defined in source order on the class object, the value of
`this` in every static field initialiser.  The result is the exported class
object. -/
def Config (importMetaEnv : Option Obj) : Except JSError Obj := do
  let this : Obj := []
  let this ← Config.backendServerAddress importMetaEnv this
  let this := Config.pollingInterval this
  let this := Config.pricePollingInterval this
  return this

/-- The read `Config.backendServerAddress`. -/
def backendServerAddress (c : Obj) : JSValue := getProp c "backendServerAddress"

/-- The read `Config.pollingInterval`. -/
def pollingInterval (c : Obj) : JSValue := getProp c "pollingInterval"

/-- The read `Config.pricePollingInterval`. -/
def pricePollingInterval (c : Obj) : JSValue := getProp c "pricePollingInterval"

/-- The relation `pricePollingInterval == 10 * pollingInterval` on a class
object: both fields hold numbers and the first is ten times the second. -/
def tenTimes (c : Obj) : Bool :=
  match pricePollingInterval c, pollingInterval c with
  | JSValue.num p, JSValue.num q => p == 10 * q
  | _, _ => false

/-! ## Operations of a consumer on the exported class object -/

/-- The property operations a consumer module can perform on the exported
class object. -/
inductive Op where
  | get (k : String) : Op
  | set (k : String) (v : JSValue) : Op
  | delete (k : String) : Op
  deriving DecidableEq, Repr

/-- Whether an operation writes the property `k` (assigns or deletes it). -/
def Op.writes (k : String) : Op → Bool
  | Op.get _ => false
  | Op.set k1 _ => k1 == k
  | Op.delete k1 => k1 == k

/-- One operation: the class object afterwards and the value of the
expression. -/
def Op.eval (c : Obj) : Op → Obj × JSValue
  | Op.get k => (c, getProp c k)
  | Op.set k v => (setProp c k v, v)
  | Op.delete k => (deleteProp c k, JSValue.bool true)

/-- A sequence of operations, left to right: the final class object and the
values of the expressions in order. -/
def run (c : Obj) : List Op → Obj × List JSValue
  | [] => (c, [])
  | op :: ops =>
    let r := Op.eval c op
    let rs := run r.1 ops
    (rs.1, r.2 :: rs.2)

/-- A run of the process: the module is loaded, then a consumer performs a
sequence of operations on the exported class object.  The result is the final
class object and the values the operations returned. -/
def session (importMetaEnv : Option Obj) (ops : List Op) :
    Except JSError (Obj × List JSValue) := do
  let c ← Config importMetaEnv
  return run c ops

/-! ## Lemmas on objects -/

theorem lookup_cons_ite (rest : Obj) (k1 k2 : String) (v1 : JSValue) :
    ((k1, v1) :: rest).lookup k2 = if k2 = k1 then some v1 else rest.lookup k2 := by
  by_cases h : k2 = k1
  · subst h
    simp
  · have hb : (k2 == k1) = false := by simpa using h
    rw [List.lookup_cons, hb, if_neg h]

theorem lookup_setProp (c : Obj) (k k2 : String) (v : JSValue) :
    (setProp c k v).lookup k2 = if k2 = k then some v else c.lookup k2 := by
  induction c with
  | nil => simp [setProp, lookup_cons_ite]
  | cons p rest ih =>
    obtain ⟨k1, v1⟩ := p
    by_cases h1 : k = k1
    · subst h1
      simp only [setProp, if_true, lookup_cons_ite]
      split <;> rfl
    · simp only [setProp, if_neg h1, lookup_cons_ite, ih]
      by_cases h2 : k2 = k1
      · have h3 : ¬ k2 = k := fun h => h1 (h ▸ h2)
        rw [if_pos h2, if_neg h3, if_pos h2]
      · rw [if_neg h2, if_neg h2]

theorem lookup_deleteProp (c : Obj) (k k2 : String) :
    (deleteProp c k).lookup k2 = if k2 = k then none else c.lookup k2 := by
  induction c with
  | nil => simp [deleteProp]
  | cons p rest ih =>
    obtain ⟨k1, v1⟩ := p
    simp only [deleteProp] at ih
    by_cases h1 : k = k1
    · subst h1
      simp only [deleteProp, List.filter_cons, beq_self_eq_true, Bool.not_true, lookup_cons_ite,
        Bool.false_eq_true, if_false]
      rw [ih]
      by_cases h : k2 = k
      · simp only [if_pos h]
      · simp only [if_neg h]
    · have hb : (k == k1) = false := by simpa using h1
      simp only [deleteProp, List.filter_cons, hb, Bool.not_false, if_true, lookup_cons_ite, ih]
      by_cases h2 : k2 = k1
      · have h3 : ¬ k2 = k := fun h => h1 (h ▸ h2)
        rw [if_pos h2, if_neg h3, if_pos h2]
      · rw [if_neg h2, if_neg h2]

/-- Reading a property after an assignment: the assigned value on the assigned
property, the old value on every other one. -/
theorem getProp_setProp (c : Obj) (k k2 : String) (v : JSValue) :
    getProp (setProp c k v) k2 = if k2 = k then v else getProp c k2 := by
  unfold getProp
  rw [lookup_setProp]
  split <;> rfl

/-- Reading a property after a removal: `undefined` on the removed property,
the old value on every other one. -/
theorem getProp_deleteProp (c : Obj) (k k2 : String) :
    getProp (deleteProp c k) k2 = if k2 = k then JSValue.undefined else getProp c k2 := by
  unfold getProp
  rw [lookup_deleteProp]
  split <;> rfl

/-- An operation that does not write `k` leaves the value of `k` as it was. -/
theorem eval_frame (k : String) (c : Obj) (op : Op) (h : Op.writes k op = false) :
    getProp (Op.eval c op).1 k = getProp c k := by
  cases op with
  | get k1 => rfl
  | set k1 v =>
    have hne : ¬ k = k1 := by
      intro e
      subst e
      simp [Op.writes] at h
    simp only [Op.eval, getProp_setProp, if_neg hne]
  | delete k1 =>
    have hne : ¬ k = k1 := by
      intro e
      subst e
      simp [Op.writes] at h
    simp only [Op.eval, getProp_deleteProp, if_neg hne]

/-- A sequence of operations none of which writes `k` leaves the value of `k`
as it was. -/
theorem run_frame (k : String) (ops : List Op) :
    ∀ c : Obj, (∀ op ∈ ops, Op.writes k op = false) →
      getProp (run c ops).1 k = getProp c k := by
  induction ops with
  | nil => intro c _; rfl
  | cons op ops ih =>
    intro c h
    have h1 : Op.writes k op = false := h op (List.mem_cons_self _ _)
    have h2 : ∀ o ∈ ops, Op.writes k o = false :=
      fun o ho => h o (List.mem_cons_of_mem _ ho)
    have e : (run c (op :: ops)).1 = (run (Op.eval c op).1 ops).1 := rfl
    rw [e, ih _ h2, eval_frame k c op h1]

/-- A sequence of reads returns the stored values and leaves the object as it
was. -/
theorem run_gets (c : Obj) (ks : List String) :
    run c (ks.map Op.get) = (c, ks.map (getProp c)) := by
  induction ks with
  | nil => rfl
  | cons k ks ih =>
    simp only [List.map_cons, run, Op.eval, ih]

/-- The class object the module exports when `import.meta.env` is the object
`env`. -/
theorem Config_some (env : Obj) :
    Config (some env) = Except.ok
      [("backendServerAddress", getProp env "VITE_APIHOSTADDRESS"),
       ("pollingInterval", JSValue.num 1000),
       ("pricePollingInterval", JSValue.num 10000)] := by
  rfl

/-- Without an `import.meta.env` object the first field initialiser throws. -/
theorem Config_none :
    Config none = Except.error (JSError.typeError "Cannot read properties of undefined") := by
  rfl

/-- Had `pricePollingInterval` been defined before `pollingInterval`, the read
of `this.pollingInterval` would give `undefined` and the product `NaN`. -/
theorem pricePollingInterval_before_pollingInterval :
    pricePollingInterval (Config.pricePollingInterval []) = JSValue.nan := by
  decide

/-! ## The load -/

/-- C1: for every environment object the module is loaded with (whatever
variables it holds, `VITE_APIHOSTADDRESS` among them or not), the load succeeds
and in the exported class object `pricePollingInterval` and `pollingInterval`
are numbers with `pricePollingInterval = 10 * pollingInterval`. -/
theorem C1_price_is_ten_times_polling (env : Obj) :
    ∃ c p q, Config (some env) = Except.ok c ∧
      pricePollingInterval c = JSValue.num p ∧ pollingInterval c = JSValue.num q ∧
      p = 10 * q ∧ tenTimes c = true := by
  refine ⟨_, 10000, 1000, Config_some env, ?_, ?_, ?_, ?_⟩
  · rfl
  · rfl
  · decide
  · rfl

/-- C2: when the environment holds `VITE_APIHOSTADDRESS` with a string value
`s`, the load succeeds and `backendServerAddress` is the string `s` itself, for
every string `s`. -/
theorem C2_backend_address_verbatim (env : Obj) (s : String)
    (h : env.lookup "VITE_APIHOSTADDRESS" = some (JSValue.str s)) :
    ∃ c, Config (some env) = Except.ok c ∧ backendServerAddress c = JSValue.str s := by
  refine ⟨_, Config_some env, ?_⟩
  show getProp env "VITE_APIHOSTADDRESS" = JSValue.str s
  simp [getProp, h]

/-- Witness of C2: the empty string, a string with blanks around it, and a
string that is no URL are all stored as they are. -/
theorem C2_backend_address_verbatim_witness :
    (∃ c, Config (some [("VITE_APIHOSTADDRESS", JSValue.str "")]) = Except.ok c ∧
      backendServerAddress c = JSValue.str "") ∧
    (∃ c, Config (some [("MODE", JSValue.str "production"),
        ("VITE_APIHOSTADDRESS", JSValue.str "  not a url \n")]) = Except.ok c ∧
      backendServerAddress c = JSValue.str "  not a url \n") :=
  ⟨C2_backend_address_verbatim [("VITE_APIHOSTADDRESS", JSValue.str "")] "" (by decide),
   C2_backend_address_verbatim [("MODE", JSValue.str "production"),
     ("VITE_APIHOSTADDRESS", JSValue.str "  not a url \n")] "  not a url \n" (by decide)⟩

/-- C3: when the environment has no `VITE_APIHOSTADDRESS`, the load does not
throw: it returns a class object whose `backendServerAddress` is `undefined`
(falsy), whose `pollingInterval` is 1000 and whose `pricePollingInterval` is
10000. -/
theorem C3_absent_variable_loads (env : Obj)
    (h : env.lookup "VITE_APIHOSTADDRESS" = none) :
    ∃ c, Config (some env) = Except.ok c ∧
      backendServerAddress c = JSValue.undefined ∧
      toBoolean (backendServerAddress c) = false ∧
      pollingInterval c = JSValue.num 1000 ∧
      pricePollingInterval c = JSValue.num 10000 := by
  have e : getProp env "VITE_APIHOSTADDRESS" = JSValue.undefined := by
    simp [getProp, h]
  refine ⟨_, Config_some env, ?_, ?_, ?_, ?_⟩
  · exact e
  · show toBoolean (getProp env "VITE_APIHOSTADDRESS") = false
    rw [e]
    rfl
  · rfl
  · rfl

/-- Witness of C3: an environment with other variables only. -/
theorem C3_absent_variable_loads_witness :
    ∃ c, Config (some [("MODE", JSValue.str "production"), ("PROD", JSValue.bool true)]) =
        Except.ok c ∧
      backendServerAddress c = JSValue.undefined ∧
      toBoolean (backendServerAddress c) = false ∧
      pollingInterval c = JSValue.num 1000 ∧
      pricePollingInterval c = JSValue.num 10000 :=
  C3_absent_variable_loads
    [("MODE", JSValue.str "production"), ("PROD", JSValue.bool true)] (by decide)

/-- C4: `pollingInterval` is the number 1000 after the load for every
environment, hence the same for any two environments. -/
theorem C4_polling_interval_is_1000 (env1 env2 : Obj) :
    (Config (some env1)).map pollingInterval = Except.ok (JSValue.num 1000) ∧
    (Config (some env2)).map pollingInterval = Except.ok (JSValue.num 1000) ∧
    (Config (some env1)).map pollingInterval = (Config (some env2)).map pollingInterval := by
  simp only [Config_some]
  exact ⟨rfl, rfl, rfl⟩

/-- C5: `pricePollingInterval` is the number 10000 after the load for every
environment (so neither `NaN` nor `undefined`): on every class object `this`,
the definition of `pollingInterval` binds 1000 and the initialiser of
`pricePollingInterval`, run after it, reads that 1000 from `this`. -/
theorem C5_price_polling_interval_is_10000 (env this : Obj) :
    (Config (some env)).map pricePollingInterval = Except.ok (JSValue.num 10000) ∧
    pollingInterval (Config.pollingInterval this) = JSValue.num 1000 ∧
    pricePollingInterval (Config.pricePollingInterval (Config.pollingInterval this)) =
      JSValue.num 10000 := by
  refine ⟨?_, ?_, ?_⟩
  · simp only [Config_some]
    rfl
  · simp [pollingInterval, Config.pollingInterval, getProp_setProp]
  · simp only [pricePollingInterval, Config.pricePollingInterval, Config.pollingInterval,
      getProp_setProp, if_true]
    rfl

/-- C9: two environments that agree on `VITE_APIHOSTADDRESS` (same value, or
absent in both) give the same exported class object, whatever else they
hold. -/
theorem C9_depends_only_on_api_host_address (env1 env2 : Obj)
    (h : env1.lookup "VITE_APIHOSTADDRESS" = env2.lookup "VITE_APIHOSTADDRESS") :
    ∃ c, Config (some env1) = Except.ok c ∧ Config (some env2) = Except.ok c := by
  refine ⟨_, Config_some env1, ?_⟩
  rw [Config_some env2]
  simp only [getProp, h]

/-- Witness of C9: two environments that differ in every other variable. -/
theorem C9_depends_only_on_api_host_address_witness :
    ∃ c, Config (some [("VITE_APIHOSTADDRESS", JSValue.str "https://api.example.com"),
        ("MODE", JSValue.str "production")]) = Except.ok c ∧
      Config (some [("DEV", JSValue.bool true), ("MODE", JSValue.str "development"),
        ("VITE_APIHOSTADDRESS", JSValue.str "https://api.example.com")]) = Except.ok c :=
  C9_depends_only_on_api_host_address
    [("VITE_APIHOSTADDRESS", JSValue.str "https://api.example.com"),
      ("MODE", JSValue.str "production")]
    [("DEV", JSValue.bool true), ("MODE", JSValue.str "development"),
      ("VITE_APIHOSTADDRESS", JSValue.str "https://api.example.com")] (by decide)

/-! ## After the load -/

/-- A session on an environment object: the operations run on the loaded class
object. -/
theorem session_some (env : Obj) (ops : List Op) :
    session (some env) ops = Except.ok (run
      [("backendServerAddress", getProp env "VITE_APIHOSTADDRESS"),
       ("pollingInterval", JSValue.num 1000),
       ("pricePollingInterval", JSValue.num 10000)] ops) := by
  rfl

/-- C6, as stated, fails: the static fields are writable properties.  After a
load with the address `https://api.example.com`, three assignments by a consumer
leave all three fields with other values than the load gave them. -/
theorem C6_assignment_changes_fields :
    (Config (some [("VITE_APIHOSTADDRESS", JSValue.str "https://api.example.com")])).map
        (fun c => (backendServerAddress c, pollingInterval c, pricePollingInterval c)) =
      Except.ok (JSValue.str "https://api.example.com", JSValue.num 1000, JSValue.num 10000) ∧
    (session (some [("VITE_APIHOSTADDRESS", JSValue.str "https://api.example.com")])
        [Op.set "backendServerAddress" (JSValue.str "http://other.example"),
         Op.set "pollingInterval" (JSValue.num 5),
         Op.set "pricePollingInterval" JSValue.null]).map
        (fun r => (backendServerAddress r.1, pollingInterval r.1, pricePollingInterval r.1)) =
      Except.ok (JSValue.str "http://other.example", JSValue.num 5, JSValue.null) := by
  decide

/-- C6, amended: in every state reached after the load by a sequence of
operations none of which assigns or deletes the property `k`, in particular one
of the three fields, `k` still holds the value the load gave it. -/
theorem C6_field_kept_without_write (env : Obj) (ops : List Op) (k : String)
    (h : ∀ op ∈ ops, Op.writes k op = false) :
    ∃ c r, Config (some env) = Except.ok c ∧ session (some env) ops = Except.ok r ∧
      getProp r.1 k = getProp c k :=
  ⟨_, _, Config_some env, session_some env ops, run_frame k ops _ h⟩

/-- Witness of the amended C6: reads, and writes of the two other fields, keep
`pollingInterval`. -/
theorem C6_field_kept_without_write_witness :
    (∀ op ∈ [Op.get "pollingInterval", Op.set "pricePollingInterval" (JSValue.num 7),
        Op.delete "backendServerAddress", Op.get "pollingInterval"],
      Op.writes "pollingInterval" op = false) ∧
    ∃ c r, Config (some [("VITE_APIHOSTADDRESS", JSValue.str "https://api.example.com")]) =
        Except.ok c ∧
      session (some [("VITE_APIHOSTADDRESS", JSValue.str "https://api.example.com")])
        [Op.get "pollingInterval", Op.set "pricePollingInterval" (JSValue.num 7),
         Op.delete "backendServerAddress", Op.get "pollingInterval"] = Except.ok r ∧
      getProp r.1 "pollingInterval" = getProp c "pollingInterval" :=
  ⟨by decide,
   C6_field_kept_without_write
    [("VITE_APIHOSTADDRESS", JSValue.str "https://api.example.com")]
    [Op.get "pollingInterval", Op.set "pricePollingInterval" (JSValue.num 7),
     Op.delete "backendServerAddress", Op.get "pollingInterval"]
    "pollingInterval" (by decide)⟩

/-- C7, as stated, fails: `pricePollingInterval` is a value stored at the load.
After the assignment `Config.pollingInterval = 250` it is still 10000, not
2500, and the relation no longer holds. -/
theorem C7_assignment_breaks_relation :
    (session (some []) [Op.set "pollingInterval" (JSValue.num 250)]).map
        (fun r => (pollingInterval r.1, pricePollingInterval r.1, tenTimes r.1)) =
      Except.ok (JSValue.num 250, JSValue.num 10000, false) := by
  decide

/-- C7, amended: `pricePollingInterval = 10 * pollingInterval` holds in every
state reached after the load by a sequence of operations that assigns or
deletes neither of the two fields. -/
theorem C7_relation_kept_without_write (env : Obj) (ops : List Op)
    (h1 : ∀ op ∈ ops, Op.writes "pollingInterval" op = false)
    (h2 : ∀ op ∈ ops, Op.writes "pricePollingInterval" op = false) :
    ∃ r, session (some env) ops = Except.ok r ∧
      pollingInterval r.1 = JSValue.num 1000 ∧
      pricePollingInterval r.1 = JSValue.num 10000 ∧
      tenTimes r.1 = true := by
  have e1 := run_frame "pollingInterval" ops
    [("backendServerAddress", getProp env "VITE_APIHOSTADDRESS"),
     ("pollingInterval", JSValue.num 1000),
     ("pricePollingInterval", JSValue.num 10000)] h1
  have e2 := run_frame "pricePollingInterval" ops
    [("backendServerAddress", getProp env "VITE_APIHOSTADDRESS"),
     ("pollingInterval", JSValue.num 1000),
     ("pricePollingInterval", JSValue.num 10000)] h2
  have p1 : pollingInterval (run
      [("backendServerAddress", getProp env "VITE_APIHOSTADDRESS"),
       ("pollingInterval", JSValue.num 1000),
       ("pricePollingInterval", JSValue.num 10000)] ops).1 = JSValue.num 1000 := e1
  have p2 : pricePollingInterval (run
      [("backendServerAddress", getProp env "VITE_APIHOSTADDRESS"),
       ("pollingInterval", JSValue.num 1000),
       ("pricePollingInterval", JSValue.num 10000)] ops).1 = JSValue.num 10000 := e2
  refine ⟨_, session_some env ops, p1, p2, ?_⟩
  unfold tenTimes
  rw [p1, p2]
  decide

/-- Witness of the amended C7: reads and writes of other properties keep the
relation. -/
theorem C7_relation_kept_without_write_witness :
    ∃ r, session (some [("MODE", JSValue.str "production")])
        [Op.get "pollingInterval", Op.set "backendServerAddress" (JSValue.str "x"),
         Op.delete "name", Op.get "pricePollingInterval"] = Except.ok r ∧
      pollingInterval r.1 = JSValue.num 1000 ∧
      pricePollingInterval r.1 = JSValue.num 10000 ∧
      tenTimes r.1 = true :=
  C7_relation_kept_without_write [("MODE", JSValue.str "production")]
    [Op.get "pollingInterval", Op.set "backendServerAddress" (JSValue.str "x"),
     Op.delete "name", Op.get "pricePollingInterval"] (by decide) (by decide)

/-- C8: on a loaded class object every read returns the stored value of its
field, however many reads came before it and in whatever order, and the reads
leave the object as it was; `pricePollingInterval` is a stored value, not
recomputed at a read: after `pollingInterval` is assigned any value `v`, a read
of `pricePollingInterval` still returns the 10000 computed at the load. -/
theorem C8_reads_are_stable (env : Obj) (ks : List String) (n : Nat) (k : String)
    (v : JSValue) :
    (∃ c, Config (some env) = Except.ok c ∧
      session (some env) (ks.map Op.get) = Except.ok (c, ks.map (getProp c)) ∧
      session (some env) (List.replicate n (Op.get k)) =
        Except.ok (c, List.replicate n (getProp c k))) ∧
    (session (some env)
        [Op.set "pollingInterval" v, Op.get "pricePollingInterval"]).map Prod.snd =
      Except.ok [v, JSValue.num 10000] := by
  refine ⟨⟨_, Config_some env, ?_, ?_⟩, ?_⟩
  · rw [session_some, run_gets]
  · have e : List.replicate n (Op.get k) = (List.replicate n k).map Op.get := by
      simp
    rw [session_some, e, run_gets]
    simp
  · rw [session_some]
    rfl

end ObscuroscanConfig
